/-
  Verification of the DoseClock dose-scheduling and status engine.

  Shallow embedding of the Python source under `medicamentos/`:
  instants and durations are rationals measured in minutes
  (Python `datetime` arithmetic is exact at this level of abstraction;
  `timedelta(hours=h)` becomes `h * 60` minutes,
  `timedelta(days=d)` becomes `d * 1440` minutes,
  `timedelta(minutes=m)` becomes `m`).
  Database querysets become explicit lists of records; the clock
  (`timezone.now()`) becomes an explicit `now` argument.
-/
import Mathlib

namespace DoseClock

/-- The two values of `Tratamiento.modo_calculo`
    (`'programada'` / `'confirmacion'`). -/
inductive ModoCalculo where
  | programada
  | confirmacion
deriving DecidableEq, Repr

/-- The four values of `Toma.estado`. -/
inductive Estado where
  | pendiente
  | confirmada
  | tarde
  | no_tomada
deriving DecidableEq, Repr

/-- The two values of `Notificacion.tipo`
    (`'principal'` / `'recordatorio'`). -/
inductive Tipo where
  | principal
  | recordatorio
deriving DecidableEq, Repr

/-- Model `Tratamiento`: the fields used by the scheduling functions.
    `fecha_hora_inicio` is an instant (minutes); `frecuencia_horas` is in
    hours; `duracion_dias` is a nullable positive-integer day count. -/
structure Tratamiento where
  fecha_hora_inicio : ℚ
  frecuencia_horas : ℚ
  modo_calculo : ModoCalculo
  es_indefinido : Bool
  duracion_dias : Option ℕ
deriving DecidableEq, Repr

/-- Model `Toma`: the fields used by the dose functions. -/
structure Toma where
  hora_programada : ℚ
  hora_confirmada : Option ℚ
  estado : Estado
deriving DecidableEq, Repr

/-- Model `Notificacion`: the fields used by the reminder command. -/
structure Notificacion where
  tipo : Tipo
  hora_programada : ℚ
  enviada : Bool
deriving DecidableEq, Repr

/-- Embedding of `calculate_next_dose(treatment, last_dose=None)` from
    `medicamentos/utils/calculos_tomas.py`. -/
def calculate_next_dose (treatment : Tratamiento) (last_dose : Option Toma) : ℚ :=
  match last_dose with
  | none => treatment.fecha_hora_inicio
  | some d =>
      let base_time :=
        match treatment.modo_calculo with
        | .programada => d.hora_programada
        | .confirmacion => d.hora_confirmada.getD d.hora_programada
      base_time + treatment.frecuencia_horas * 60

/-- Embedding of `is_dose_within_treatment(treatment, dose_time)` from
    `medicamentos/utils/calculos_tomas.py`. -/
def is_dose_within_treatment (treatment : Tratamiento) (dose_time : ℚ) : Bool :=
  if treatment.es_indefinido then
    true
  else
    match treatment.duracion_dias with
    | none => true
    | some d => decide (dose_time ≤ treatment.fecha_hora_inicio + (d : ℚ) * 1440)

/-- Embedding of `determine_dose_status(scheduled_time, confirmed_time=None,
    grace_minutes=20)` from `medicamentos/utils/calculos_tomas.py`,
    with the clock passed explicitly. -/
def determine_dose_status (scheduled_time : ℚ) (confirmed_time : Option ℚ)
    (grace_minutes : ℚ) (now : ℚ) : Estado :=
  match confirmed_time with
  | none =>
      if now > scheduled_time + grace_minutes then .no_tomada else .pendiente
  | some c =>
      if c ≤ scheduled_time + grace_minutes then .confirmada else .tarde

/-- Result record of `get_time_until_dose` (the dict it returns). -/
structure TimeUntil where
  hours : ℕ
  minutes : ℕ
  seconds : ℕ
  total_seconds : ℕ
  is_past : Bool
deriving DecidableEq, Repr

/-- Embedding of `get_time_until_dose(dose_time)` from
    `medicamentos/utils/calculos_tomas.py`, with the clock explicit.
    `delta.total_seconds()` is the (exact) difference in seconds; Python's
    `int(...)` on a nonnegative value truncates, i.e. floors. -/
def get_time_until_dose (dose_time : ℚ) (now : ℚ) : TimeUntil :=
  let deltaSeconds : ℚ := (dose_time - now) * 60
  if deltaSeconds < 0 then
    { hours := 0, minutes := 0, seconds := 0, total_seconds := 0, is_past := true }
  else
    let total_seconds : ℕ := (⌊deltaSeconds⌋).toNat
    { hours := total_seconds / 3600
      minutes := (total_seconds % 3600) / 60
      seconds := total_seconds % 60
      total_seconds := total_seconds
      is_past := false }

/-- Result record of `confirm_dose` (the dict it returns, minus the
    echoed ids/times). -/
structure ConfirmResult where
  success : Bool
  new_status : Estado
  was_on_time : Bool
deriving DecidableEq, Repr

/-- Embedding of `confirm_dose(dose, confirmation_time=None)` from
    `medicamentos/utils/validaciones.py`: the mutation of the `Toma`
    row is returned as the first component, the result dict as the
    second. `grace_minutes` (from settings, default 20) is explicit. -/
def confirm_dose (dose : Toma) (confirmation_time : ℚ) (grace_minutes : ℚ) :
    Toma × ConfirmResult :=
  let deadline := dose.hora_programada + grace_minutes
  let new_status : Estado :=
    if confirmation_time ≤ deadline then .confirmada else .tarde
  ({ dose with hora_confirmada := some confirmation_time, estado := new_status },
   { success := true
     new_status := new_status
     was_on_time := new_status = .confirmada })

/-- The per-row update of `validate_and_update_doses` in
    `medicamentos/utils/validaciones.py`: the queryset filter
    `estado='pendiente', hora_programada__lt=cutoff_time` followed by
    `update(estado='no_tomada')`. -/
def sweep_row (cutoff_time : ℚ) (d : Toma) : Toma :=
  if d.estado = .pendiente ∧ d.hora_programada < cutoff_time then
    { d with estado := .no_tomada }
  else
    d

/-- Embedding of `validate_and_update_doses()` from `medicamentos/utils/validaciones.py`
    over an explicit table of `Toma` rows: returns the updated table and
    the `updated_count` of the result dict.
    `cutoff_time = timezone.now() - timedelta(minutes=grace_minutes)`. -/
def validate_and_update_doses (doses : List Toma) (grace_minutes : ℚ) (now : ℚ) :
    List Toma × ℕ :=
  let cutoff_time := now - grace_minutes
  (doses.map (sweep_row cutoff_time),
   (doses.filter (fun d =>
      d.estado = .pendiente ∧ d.hora_programada < cutoff_time)).length)

/-- The `while next_time <= current_time: next_time += timedelta(hours=f)`
    loop of `calculate_all_future_doses`; terminates because the
    frequency is positive. -/
def advancePast (freqMinutes current_time : ℚ) (hfreq : 0 < freqMinutes)
    (next_time : ℚ) : ℚ :=
  if _h : next_time ≤ current_time then
    advancePast freqMinutes current_time hfreq (next_time + freqMinutes)
  else
    next_time
termination_by (⌈(current_time - next_time) / freqMinutes⌉ + 1).toNat
decreasing_by
  have h0 : (0:ℚ) ≤ (current_time - next_time) / freqMinutes :=
    div_nonneg (by linarith) (le_of_lt hfreq)
  have hkey : (current_time - (next_time + freqMinutes)) / freqMinutes
      = (current_time - next_time) / freqMinutes - 1 := by
    field_simp
    ring
  have hceil : ⌈(current_time - (next_time + freqMinutes)) / freqMinutes⌉
      = ⌈(current_time - next_time) / freqMinutes⌉ - 1 := by
    rw [hkey]
    exact_mod_cast Int.ceil_sub_int ((current_time - next_time) / freqMinutes) 1
  have hge : (0:ℤ) ≤ ⌈(current_time - next_time) / freqMinutes⌉ :=
    Int.ceil_nonneg h0
  omega

/-- The `for _ in range(count)` loop of `calculate_all_future_doses`:
    collect instants `freqMinutes` apart, stopping at the first one that
    fails `is_dose_within_treatment`. -/
def generateDoses (treatment : Tratamiento) (freqMinutes : ℚ) :
    ℕ → ℚ → List ℚ
  | 0, _ => []
  | count + 1, next_time =>
      if is_dose_within_treatment treatment next_time then
        next_time :: generateDoses treatment freqMinutes count (next_time + freqMinutes)
      else
        []

/-- The queryset
    `Toma.objects.filter(tratamiento=treatment).order_by('-hora_programada').first()`
    over an explicit table: the first row of the table sorted by
    `hora_programada` descending (ties keep table order, as in a stable
    sort). -/
def latestToma (doses : List Toma) : Option Toma :=
  (doses.foldl (fun acc d =>
    match acc with
    | none => some d
    | some best => if d.hora_programada > best.hora_programada then some d else best)
    none)

/-- The `base_time` selection of `calculate_all_future_doses`: the most
    recent persisted dose's scheduled (or, in mode `confirmacion`,
    confirmed-else-scheduled) time, or the treatment start when the
    table is empty. -/
def scheduleBase (treatment : Tratamiento) (doses : List Toma) : ℚ :=
  match latestToma doses with
  | some last_dose =>
      match treatment.modo_calculo with
      | .programada => last_dose.hora_programada
      | .confirmacion => last_dose.hora_confirmada.getD last_dose.hora_programada
  | none => treatment.fecha_hora_inicio

/-- Embedding of `calculate_all_future_doses(treatment, count=10)` from
    `medicamentos/utils/calculos_tomas.py`, over an explicit table of
    this treatment's `Toma` rows and an explicit clock. The positivity
    of the frequency is carried as a proof so that the while loop
    terminates. -/
def calculate_all_future_doses (treatment : Tratamiento) (doses : List Toma)
    (now : ℚ) (count : ℕ) (hfreq : 0 < treatment.frecuencia_horas) : List ℚ :=
  let freqMinutes := treatment.frecuencia_horas * 60
  let next_time := advancePast freqMinutes now (by positivity) (scheduleBase treatment doses)
  generateDoses treatment freqMinutes count next_time

/-- Outcome of one pass of the reminder command over one dose:
    whether each delivery call was made, and the table of this dose's
    `Notificacion` rows afterwards. -/
structure DispatchOutcome where
  attempted_advance : Bool
  attempted_main : Bool
  notifs : List Notificacion
deriving DecidableEq, Repr

/-- The per-dose body of `Command.handle` in
    `medicamentos/management/commands/enviar_recordatorios_telegram.py`
    (non-dry-run path), including the queryset filter
    `estado='pendiente', hora_programada__gte=now-2min,
    hora_programada__lte=now+24h`. `enviar_anticipado` is
    `config.recordatorio_anticipado`; `notifs` is the table of this
    dose's `Notificacion` rows; `advance_success` / `main_success`
    abstract the `result.get('success')` of the two Telegram sends. -/
def dispatchDose (enviar_anticipado : Bool) (now : ℚ) (toma : Toma)
    (notifs : List Notificacion) (advance_success main_success : Bool) :
    DispatchOutcome :=
  if toma.estado = .pendiente ∧ now - 2 ≤ toma.hora_programada ∧
      toma.hora_programada ≤ now + 1440 then
    let minutos_hasta_toma := toma.hora_programada - now
    let notif_anticipada :=
      notifs.any (fun n => n.tipo = .recordatorio ∧ n.enviada)
    let attempt_adv : Bool :=
      enviar_anticipado ∧ 4 ≤ minutos_hasta_toma ∧ minutos_hasta_toma ≤ 6 ∧
        ¬notif_anticipada
    let notifs1 :=
      if attempt_adv ∧ advance_success then
        notifs ++ [{ tipo := .recordatorio,
                     hora_programada := toma.hora_programada - 5,
                     enviada := true }]
      else notifs
    let notif_principal :=
      notifs1.any (fun n => n.tipo = .principal ∧ n.enviada)
    let attempt_main : Bool :=
      -2 ≤ minutos_hasta_toma ∧ minutos_hasta_toma ≤ 2 ∧ ¬notif_principal
    let notifs2 :=
      if attempt_main ∧ main_success then
        notifs1 ++ [{ tipo := .principal,
                      hora_programada := toma.hora_programada,
                      enviada := true }]
      else notifs1
    { attempted_advance := attempt_adv
      attempted_main := attempt_main
      notifs := notifs2 }
  else
    { attempted_advance := false, attempted_main := false, notifs := notifs }

/-- A backup file as read from disk: missing, unparseable JSON, or a
    parsed document. -/
structure BackupDoc where
  has_version : Bool
  has_created_at : Bool
  has_data : Bool
  has_stats : Bool
  has_medicamentos : Bool
  has_tratamientos : Bool
  has_tomas : Bool
  has_notificaciones : Bool
  has_configuracion : Bool
  medicamentos : List ℕ
  tratamientos : List ℕ
  tomas : List ℕ
  notificaciones : List ℕ
  configuracion : List ℕ
deriving DecidableEq, Repr

/-- The three ways reading the backup file can go in
    `medicamentos/utils/backup.py`: `FileNotFoundError`,
    `json.JSONDecodeError`, or a parsed document. -/
inductive BackupFile where
  | notFound
  | invalidJson
  | doc (d : BackupDoc)
deriving DecidableEq, Repr

/-- Result dict of `validate_backup` (the echoed `version` /
    `created_at` / `stats` fields of the valid case are omitted). -/
structure ValidationResult where
  valid : Bool
  error : Option String
deriving DecidableEq, Repr

/-- Embedding of `validate_backup(filepath)` from `medicamentos/utils/backup.py`:
    checks the required top-level fields `version`, `created_at`, `data`
    in order, then the five sections of `data`, in order. -/
def validate_backup : BackupFile → ValidationResult
  | .notFound => { valid := false, error := some "Archivo no encontrado" }
  | .invalidJson => { valid := false, error := some "Archivo JSON invalido" }
  | .doc d =>
      if ¬d.has_version then
        { valid := false, error := some "Campo requerido version no encontrado" }
      else if ¬d.has_created_at then
        { valid := false, error := some "Campo requerido created_at no encontrado" }
      else if ¬d.has_data then
        { valid := false, error := some "Campo requerido data no encontrado" }
      else if ¬d.has_medicamentos then
        { valid := false, error := some "Datos de medicamentos no encontrados" }
      else if ¬d.has_tratamientos then
        { valid := false, error := some "Datos de tratamientos no encontrados" }
      else if ¬d.has_tomas then
        { valid := false, error := some "Datos de tomas no encontrados" }
      else if ¬d.has_notificaciones then
        { valid := false, error := some "Datos de notificaciones no encontrados" }
      else if ¬d.has_configuracion then
        { valid := false, error := some "Datos de configuracion no encontrados" }
      else
        { valid := true, error := none }

/-- The stored rows of the five entities that `restore_backup` clears
    and reloads (rows abstracted to identifiers). -/
structure DB where
  medicamentos : List ℕ
  tratamientos : List ℕ
  tomas : List ℕ
  notificaciones : List ℕ
  configuracion : List ℕ
deriving DecidableEq, Repr

/-- Result dict of `restore_backup` (restored counts and backup date
    omitted). -/
structure RestoreResult where
  success : Bool
  error : Option String
deriving DecidableEq, Repr

/-- Embedding of `restore_backup(filepath)` from `medicamentos/utils/backup.py` over
    an explicit database state: validates, and only on success deletes
    all rows and reloads them from the document. -/
def restore_backup (file : BackupFile) (db : DB) : DB × RestoreResult :=
  let validation := validate_backup file
  if validation.valid then
    match file with
    | .doc d =>
        ({ medicamentos := d.medicamentos
           tratamientos := d.tratamientos
           tomas := d.tomas
           notificaciones := d.notificaciones
           configuracion := d.configuracion },
         { success := true, error := none })
    | _ => (db, { success := false, error := validation.error })
  else
    (db, { success := false, error := validation.error })

/-- The schedule obtained by iterating `calculate_next_dose`, feeding
    each result back as the next dose's `hora_programada`; `conf n`
    supplies an arbitrary confirmation time (or none) for dose `n`. -/
def iterated_scheduled (t : Tratamiento) (conf : ℕ → Option ℚ) : ℕ → ℚ
  | 0 => calculate_next_dose t none
  | n + 1 =>
      calculate_next_dose t
        (some { hora_programada := iterated_scheduled t conf n
                hora_confirmada := conf n
                estado := .pendiente })

/-- C1: the function `calculate_next_dose` returns the treatment start time when no
    prior dose is given (in either mode); otherwise it returns
    base + `frecuencia_horas` hours, where base is the last dose's
    scheduled time in mode `programada`, and its confirmed time —
    falling back to its scheduled time when unconfirmed — in mode
    `confirmacion`. -/
theorem claim1_calculate_next_dose (t : Tratamiento) (d : Toma) :
    calculate_next_dose t none = t.fecha_hora_inicio ∧
    (t.modo_calculo = .programada →
      calculate_next_dose t (some d) =
        d.hora_programada + t.frecuencia_horas * 60) ∧
    (t.modo_calculo = .confirmacion → d.hora_confirmada = none →
      calculate_next_dose t (some d) =
        d.hora_programada + t.frecuencia_horas * 60) ∧
    (∀ c, t.modo_calculo = .confirmacion → d.hora_confirmada = some c →
      calculate_next_dose t (some d) = c + t.frecuencia_horas * 60) := by
  refine ⟨rfl, fun h => ?_, fun h hc => ?_, fun c h hc => ?_⟩
  · simp [calculate_next_dose, h]
  · simp [calculate_next_dose, h, hc]
  · simp [calculate_next_dose, h, hc]

/-- Witness for C1 at a concrete treatment and dose. -/
theorem claim1_calculate_next_dose_witness :
    calculate_next_dose
      { fecha_hora_inicio := 0, frecuencia_horas := 8,
        modo_calculo := .programada, es_indefinido := true,
        duracion_dias := none }
      (some { hora_programada := 480, hora_confirmada := some 490,
              estado := .confirmada }) = 480 + 8 * 60 :=
  (claim1_calculate_next_dose _ _).2.1 rfl

/-- C2: in mode `programada`, iterating `calculate_next_dose` N times
    yields exactly `fecha_hora_inicio + N * frecuencia_horas` hours, no
    matter what the intermediate confirmation times were. -/
theorem claim2_from_scheduled_accumulation (t : Tratamiento)
    (conf : ℕ → Option ℚ) (N : ℕ) (h : t.modo_calculo = .programada) :
    iterated_scheduled t conf N =
      t.fecha_hora_inicio + (N : ℚ) * (t.frecuencia_horas * 60) := by
  induction N with
  | zero => simp [iterated_scheduled, calculate_next_dose]
  | succ n ih =>
      simp only [iterated_scheduled, calculate_next_dose, h, ih]
      push_cast
      ring

/-- Witness for C2: two iterations with an off-schedule confirmation
    still land on start + 2 frequencies. -/
theorem claim2_from_scheduled_accumulation_witness :
    iterated_scheduled
      { fecha_hora_inicio := 0, frecuencia_horas := 8,
        modo_calculo := .programada, es_indefinido := true,
        duracion_dias := none }
      (fun _ => some 123) 2 = 960 := by
  have h := claim2_from_scheduled_accumulation
    { fecha_hora_inicio := 0, frecuencia_horas := 8,
      modo_calculo := .programada, es_indefinido := true,
      duracion_dias := none }
    (fun _ => some 123) 2 rfl
  rw [h]; norm_num

/-- C4: the function `determine_dose_status` returns `no_tomada` when unconfirmed and
    past the grace deadline, `pendiente` when unconfirmed otherwise,
    `confirmada` when confirmed within the deadline, `tarde` when
    confirmed after it. -/
theorem claim4_determine_dose_status (s : ℚ) (c : Option ℚ) (g now : ℚ) :
    (c = none → now > s + g → determine_dose_status s c g now = .no_tomada) ∧
    (c = none → ¬(now > s + g) → determine_dose_status s c g now = .pendiente) ∧
    (∀ ct, c = some ct → ct ≤ s + g →
      determine_dose_status s c g now = .confirmada) ∧
    (∀ ct, c = some ct → ¬(ct ≤ s + g) →
      determine_dose_status s c g now = .tarde) := by
  refine ⟨fun hc h => ?_, fun hc h => ?_, fun ct hc h => ?_, fun ct hc h => ?_⟩ <;>
    simp [determine_dose_status, hc, h]

/-- Witness for C4: an unconfirmed dose 21 minutes past schedule with a
    20-minute grace is `no_tomada`. -/
theorem claim4_determine_dose_status_witness :
    determine_dose_status 0 none 20 21 = .no_tomada :=
  (claim4_determine_dose_status 0 none 20 21).1 rfl (by norm_num)

/-- C5: the function `confirm_dose` records the confirmation time, sets the status to
    `confirmada` iff the confirmation is within the grace deadline and
    `tarde` otherwise, reports `was_on_time` iff the status is
    `confirmada`, always succeeds regardless of the prior status, and on
    the concrete example (scheduled T0, confirmed T0+5min, grace 20min)
    yields `confirmada` with `was_on_time = true`. -/
theorem claim5_confirm_dose (dose : Toma) (ct g : ℚ) :
    (confirm_dose dose ct g).1.hora_confirmada = some ct ∧
    (confirm_dose dose ct g).1.hora_programada = dose.hora_programada ∧
    (confirm_dose dose ct g).1.estado = (confirm_dose dose ct g).2.new_status ∧
    ((confirm_dose dose ct g).2.new_status = .confirmada ↔
      ct ≤ dose.hora_programada + g) ∧
    ((confirm_dose dose ct g).2.new_status = .confirmada ∨
      (confirm_dose dose ct g).2.new_status = .tarde) ∧
    ((confirm_dose dose ct g).2.was_on_time = true ↔
      (confirm_dose dose ct g).2.new_status = .confirmada) ∧
    (confirm_dose dose ct g).2.success = true ∧
    (confirm_dose { hora_programada := 0, hora_confirmada := none,
                    estado := .no_tomada } 5 20).2.new_status = .confirmada ∧
    (confirm_dose { hora_programada := 0, hora_confirmada := none,
                    estado := .no_tomada } 5 20).2.was_on_time = true := by
  refine ⟨?_, ?_, ?_, ?_, ?_, ?_, ?_, ?_, ?_⟩ <;>
    by_cases h : ct ≤ dose.hora_programada + g <;>
      simp [confirm_dose, h] <;> norm_num

/-- C8: the function `is_dose_within_treatment` is true when the treatment is
    indefinite or has no duration, and otherwise true exactly on
    instants up to start + duration days inclusive; with a one-day
    duration starting at 0, T0+23h is inside and T0+25h is outside. -/
theorem claim8_is_dose_within_treatment (t : Tratamiento) (x : ℚ) :
    (t.es_indefinido = true → is_dose_within_treatment t x = true) ∧
    (t.duracion_dias = none → is_dose_within_treatment t x = true) ∧
    (∀ d, t.es_indefinido = false → t.duracion_dias = some d →
      (is_dose_within_treatment t x = true ↔
        x ≤ t.fecha_hora_inicio + (d : ℚ) * 1440)) ∧
    is_dose_within_treatment
      { fecha_hora_inicio := 0, frecuencia_horas := 8,
        modo_calculo := .programada, es_indefinido := false,
        duracion_dias := some 1 } (23 * 60) = true ∧
    is_dose_within_treatment
      { fecha_hora_inicio := 0, frecuencia_horas := 8,
        modo_calculo := .programada, es_indefinido := false,
        duracion_dias := some 1 } (25 * 60) = false := by
  refine ⟨fun h => ?_, fun h => ?_, fun d h hd => ?_, ?_, ?_⟩
  · simp [is_dose_within_treatment, h]
  · cases hi : t.es_indefinido <;> simp [is_dose_within_treatment, h, hi]
  · simp [is_dose_within_treatment, h, hd]
  · norm_num [is_dose_within_treatment]
  · norm_num [is_dose_within_treatment]

/-- Witness for C8: a finite 10-day treatment contains its day-10
    boundary instant. -/
theorem claim8_is_dose_within_treatment_witness :
    is_dose_within_treatment
      { fecha_hora_inicio := 0, frecuencia_horas := 8,
        modo_calculo := .programada, es_indefinido := false,
        duracion_dias := some 10 } 14400 = true :=
  ((claim8_is_dose_within_treatment
      { fecha_hora_inicio := 0, frecuencia_horas := 8,
        modo_calculo := .programada, es_indefinido := false,
        duracion_dias := some 10 } 14400).2.2.1 10 rfl rfl).mpr (by norm_num)

/-- C10: the function `get_time_until_dose` returns all-zero fields with
    `is_past = true` when the remaining delta is negative; otherwise
    `is_past = false`, minutes and seconds are below 60, `total_seconds`
    is the floor of the remaining seconds, and the hour/minute/second
    decomposition adds back up to `total_seconds`. -/
theorem claim10_get_time_until_dose (dose_time now : ℚ) :
    (dose_time < now →
      get_time_until_dose dose_time now =
        { hours := 0, minutes := 0, seconds := 0, total_seconds := 0,
          is_past := true }) ∧
    (now ≤ dose_time →
      (get_time_until_dose dose_time now).is_past = false ∧
      (get_time_until_dose dose_time now).minutes < 60 ∧
      (get_time_until_dose dose_time now).seconds < 60 ∧
      (get_time_until_dose dose_time now).total_seconds =
        (⌊(dose_time - now) * 60⌋).toNat ∧
      (get_time_until_dose dose_time now).hours * 3600 +
        (get_time_until_dose dose_time now).minutes * 60 +
        (get_time_until_dose dose_time now).seconds =
        (get_time_until_dose dose_time now).total_seconds) := by
  constructor
  · intro h
    have hneg : (dose_time - now) * 60 < 0 := by nlinarith
    simp [get_time_until_dose, hneg]
  · intro h
    have hnn : ¬((dose_time - now) * 60 < 0) := by nlinarith
    simp only [get_time_until_dose, hnn, if_false]
    refine ⟨trivial, ?_, ?_, trivial, ?_⟩ <;> omega

/-- Witness for C10: seven minutes ahead is not past and splits into
    0h 7m 0s totalling 420 seconds. -/
theorem claim10_get_time_until_dose_witness :
    (get_time_until_dose 10 3).is_past = false ∧
    (get_time_until_dose 10 3).total_seconds = (⌊((10:ℚ) - 3) * 60⌋).toNat :=
  ⟨((claim10_get_time_until_dose 10 3).2 (by norm_num)).1,
   ((claim10_get_time_until_dose 10 3).2 (by norm_num)).2.2.2.1⟩

/-- Applying `sweep_row` twice equals applying it once. -/
lemma sweep_row_idem (c : ℚ) (d : Toma) :
    sweep_row c (sweep_row c d) = sweep_row c d := by
  by_cases h : d.estado = .pendiente ∧ d.hora_programada < c <;>
    simp [sweep_row, h]

/-- A swept row is never a pending overdue row. -/
lemma sweep_row_not_overdue (c : ℚ) (d : Toma) :
    ¬((sweep_row c d).estado = .pendiente ∧
      (sweep_row c d).hora_programada < c) := by
  by_cases h : d.estado = .pendiente ∧ d.hora_programada < c <;>
    simp [sweep_row, h]

/-- C6: the overdue sweep marks `no_tomada` exactly the rows that are
    `pendiente` with `hora_programada + grace < now`, leaves all other
    rows unchanged, returns the number of rows so updated, is idempotent
    at a fixed clock, and — on tables satisfying the data invariant that
    a confirmed dose is never `pendiente` — leaves every row with a
    non-null `hora_confirmada` untouched. -/
theorem claim6_validate_and_update_doses (doses : List Toma) (g now : ℚ) :
    (validate_and_update_doses doses g now).1 =
      doses.map (fun d =>
        if d.estado = .pendiente ∧ d.hora_programada + g < now then
          { d with estado := Estado.no_tomada } else d) ∧
    (validate_and_update_doses doses g now).2 =
      (doses.filter (fun d =>
        decide (d.estado = .pendiente ∧ d.hora_programada + g < now))).length ∧
    validate_and_update_doses (validate_and_update_doses doses g now).1 g now =
      ((validate_and_update_doses doses g now).1, 0) ∧
    ((∀ d ∈ doses, d.hora_confirmada ≠ none → d.estado ≠ .pendiente) →
      ∀ d ∈ doses, d.hora_confirmada ≠ none → sweep_row (now - g) d = d) := by
  have hiff : ∀ d : Toma,
      (d.estado = .pendiente ∧ d.hora_programada < now - g) ↔
      (d.estado = .pendiente ∧ d.hora_programada + g < now) := by
    intro d
    constructor <;> rintro ⟨h1, h2⟩ <;> exact ⟨h1, by linarith⟩
  refine ⟨?_, ?_, ?_, ?_⟩
  · unfold validate_and_update_doses
    refine List.map_congr_left (fun d _ => ?_)
    unfold sweep_row
    by_cases h : d.estado = .pendiente ∧ d.hora_programada < now - g
    · rw [if_pos h, if_pos ((hiff d).mp h)]
    · rw [if_neg h, if_neg (fun hc => h ((hiff d).mpr hc))]
  · have hdef : (validate_and_update_doses doses g now).2 =
        (doses.filter (fun d =>
          decide (d.estado = .pendiente ∧ d.hora_programada < now - g))).length :=
      rfl
    rw [hdef]
    congr 1
    refine List.filter_congr (fun d _ => ?_)
    exact decide_eq_decide.mpr (hiff d)
  · unfold validate_and_update_doses
    refine Prod.ext ?_ ?_
    · simp only [List.map_map]
      exact List.map_congr_left (fun d _ => sweep_row_idem _ d)
    · simp only
      rw [List.filter_map, List.filter_eq_nil_iff.mpr]
      · simp
      · intro d _
        simpa using sweep_row_not_overdue (now - g) d
  · intro hinv d hd hc
    have hne := hinv d hd hc
    unfold sweep_row
    rw [if_neg (fun h => hne h.1)]

/-- Witness for C6: on a one-row table with a confirmed dose the sweep
    invariant conjunct applies and leaves the row unchanged. -/
theorem claim6_validate_and_update_doses_witness :
    sweep_row ((50:ℚ) - 20)
      { hora_programada := 0, hora_confirmada := some 3,
        estado := .confirmada } =
      { hora_programada := 0, hora_confirmada := some 3,
        estado := .confirmada } :=
  (claim6_validate_and_update_doses
      [{ hora_programada := 0, hora_confirmada := some 3,
         estado := .confirmada }] 20 50).2.2.2
    (by intro d hd hc; simp at hd; simp [hd])
    { hora_programada := 0, hora_confirmada := some 3, estado := .confirmada }
    (by simp) (by simp)

/-- When validation rejects a backup file, it carries an error
    message. -/
lemma validate_backup_error_of_invalid (file : BackupFile)
    (h : (validate_backup file).valid = false) :
    (validate_backup file).error ≠ none := by
  cases file with
  | notFound => simp [validate_backup]
  | invalidJson => simp [validate_backup]
  | doc d =>
      simp only [validate_backup] at h ⊢
      split_ifs at h ⊢ <;> simp_all

/-- C9 counterexample: a document carrying `version`, `created_at` and
    `data` (with all five sections) but **no** `stats` key — one of the
    four keys the claim says is required — passes validation, and
    `restore_backup` then proceeds destructively and reports success,
    replacing the stored rows. -/
theorem claim9_counterexample :
    (restore_backup
      (.doc { has_version := true, has_created_at := true, has_data := true,
              has_stats := false, has_medicamentos := true,
              has_tratamientos := true, has_tomas := true,
              has_notificaciones := true, has_configuracion := true,
              medicamentos := [], tratamientos := [], tomas := [],
              notificaciones := [], configuracion := [] })
      { medicamentos := [1], tratamientos := [2], tomas := [3],
        notificaciones := [4], configuracion := [5] }).2.success = true ∧
    (restore_backup
      (.doc { has_version := true, has_created_at := true, has_data := true,
              has_stats := false, has_medicamentos := true,
              has_tratamientos := true, has_tomas := true,
              has_notificaciones := true, has_configuracion := true,
              medicamentos := [], tratamientos := [], tomas := [],
              notificaciones := [], configuracion := [] })
      { medicamentos := [1], tratamientos := [2], tomas := [3],
        notificaciones := [4], configuracion := [5] }).1 ≠
      { medicamentos := [1], tratamientos := [2], tomas := [3],
        notificaciones := [4], configuracion := [5] } := by
  refine ⟨rfl, ?_⟩
  intro hcontra
  simpa [restore_backup, validate_backup] using congrArg DB.medicamentos hcontra

/-- C9 amended: the function `restore_backup` validates the three top-level keys
    `version`, `created_at`, `data` (the `stats` key is not checked) and
    the five `data` sections before any destructive action; whenever
    validation fails — one of those keys or sections missing, the file
    not found, or invalid JSON — it returns a failure result carrying a
    human-readable message and modifies no stored rows. -/
theorem claim9_restore_backup_amended (file : BackupFile) (db : DB) :
    ((validate_backup file).valid = false →
      restore_backup file db =
        (db, { success := false, error := (validate_backup file).error }) ∧
      (validate_backup file).error ≠ none) ∧
    (validate_backup .notFound).valid = false ∧
    (validate_backup .invalidJson).valid = false ∧
    (∀ d : BackupDoc, (validate_backup (.doc d)).valid = true ↔
      (d.has_version = true ∧ d.has_created_at = true ∧ d.has_data = true ∧
       d.has_medicamentos = true ∧ d.has_tratamientos = true ∧
       d.has_tomas = true ∧ d.has_notificaciones = true ∧
       d.has_configuracion = true)) := by
  refine ⟨fun h => ⟨?_, validate_backup_error_of_invalid file h⟩, rfl, rfl, ?_⟩
  · unfold restore_backup
    rw [if_neg (by simp [h])]
  · intro d
    simp only [validate_backup]
    split_ifs <;> simp_all

/-- Witness for C9 (amended): restoring from a missing file fails with
    a message and leaves the database untouched. -/
theorem claim9_restore_backup_amended_witness :
    restore_backup .notFound
      { medicamentos := [1], tratamientos := [], tomas := [],
        notificaciones := [], configuracion := [] } =
      ({ medicamentos := [1], tratamientos := [], tomas := [],
         notificaciones := [], configuracion := [] },
       { success := false, error := some "Archivo no encontrado" }) :=
  ((claim9_restore_backup_amended .notFound
      { medicamentos := [1], tratamientos := [], tomas := [],
        notificaciones := [], configuracion := [] }).1 rfl).1

/-- The advance delivery call is made only for a pending dose, with the
    advance reminder enabled, 4–6 minutes ahead, and no sent advance
    notification on record. -/
lemma attempted_advance_spec (ea : Bool) (now : ℚ) (toma : Toma)
    (notifs : List Notificacion) (sa sm : Bool)
    (h : (dispatchDose ea now toma notifs sa sm).attempted_advance = true) :
    toma.estado = .pendiente ∧ ea = true ∧
    4 ≤ toma.hora_programada - now ∧ toma.hora_programada - now ≤ 6 ∧
    ∀ n ∈ notifs, n.tipo = .recordatorio → n.enviada = false := by
  unfold dispatchDose at h
  by_cases hg : toma.estado = .pendiente ∧ now - 2 ≤ toma.hora_programada ∧
      toma.hora_programada ≤ now + 1440
  · rw [if_pos hg] at h
    dsimp only at h
    rw [decide_eq_true_eq] at h
    obtain ⟨hea, h4, h6, hno⟩ := h
    refine ⟨hg.1, hea, h4, h6, fun n hn h1 => ?_⟩
    by_contra h2
    rw [Bool.not_eq_false] at h2
    exact hno (List.any_eq_true.mpr ⟨n, hn, decide_eq_true ⟨h1, h2⟩⟩)
  · rw [if_neg hg] at h
    exact absurd h (by simp)

/-- The main delivery call is made only for a pending dose within two
    minutes of schedule with no sent main notification on record. -/
lemma attempted_main_spec (ea : Bool) (now : ℚ) (toma : Toma)
    (notifs : List Notificacion) (sa sm : Bool)
    (h : (dispatchDose ea now toma notifs sa sm).attempted_main = true) :
    toma.estado = .pendiente ∧
    -2 ≤ toma.hora_programada - now ∧ toma.hora_programada - now ≤ 2 ∧
    ∀ n ∈ notifs, n.tipo = .principal → n.enviada = false := by
  unfold dispatchDose at h
  by_cases hg : toma.estado = .pendiente ∧ now - 2 ≤ toma.hora_programada ∧
      toma.hora_programada ≤ now + 1440
  · rw [if_pos hg] at h
    dsimp only at h
    rw [decide_eq_true_eq] at h
    obtain ⟨h2a, h2b, hno⟩ := h
    refine ⟨hg.1, h2a, h2b, fun n hn h1 => ?_⟩
    by_contra h2
    rw [Bool.not_eq_false] at h2
    refine hno (List.any_eq_true.mpr ⟨n, ?_, decide_eq_true ⟨h1, h2⟩⟩)
    split
    · exact List.mem_append_left _ hn
    · exact hn
  · rw [if_neg hg] at h
    exact absurd h (by simp)

/-- One dispatcher pass only ever appends: the advance record (kind
    `recordatorio`, scheduled 5 minutes before the dose, `enviada`) when
    the advance call was made and succeeded, then the main record (kind
    `principal`, scheduled at the dose, `enviada`) when the main call
    was made and succeeded. -/
lemma dispatchDose_notifs_shape (ea : Bool) (now : ℚ) (toma : Toma)
    (notifs : List Notificacion) (sa sm : Bool) :
    (dispatchDose ea now toma notifs sa sm).notifs =
      notifs ++
        (if (dispatchDose ea now toma notifs sa sm).attempted_advance = true ∧
            sa = true then
          [{ tipo := .recordatorio, hora_programada := toma.hora_programada - 5,
             enviada := true }]
        else []) ++
        (if (dispatchDose ea now toma notifs sa sm).attempted_main = true ∧
            sm = true then
          [{ tipo := .principal, hora_programada := toma.hora_programada,
             enviada := true }]
        else []) := by
  unfold dispatchDose
  by_cases hg : toma.estado = .pendiente ∧ now - 2 ≤ toma.hora_programada ∧
      toma.hora_programada ≤ now + 1440
  · rw [if_pos hg]
    dsimp only
    split_ifs <;> simp_all
  · rw [if_neg hg]
    simp

/-- An already-recorded sent advance notification blocks the advance
    delivery call. -/
lemma attempted_advance_blocked (ea : Bool) (now : ℚ) (toma : Toma)
    (notifs : List Notificacion) (sa sm : Bool) (n : Notificacion)
    (hn : n ∈ notifs) (ht : n.tipo = .recordatorio) (he : n.enviada = true) :
    (dispatchDose ea now toma notifs sa sm).attempted_advance = false := by
  by_contra h
  rw [Bool.not_eq_false] at h
  obtain ⟨_, _, _, _, hall⟩ := attempted_advance_spec ea now toma notifs sa sm h
  exact absurd (hall n hn ht) (by simp [he])

/-- An already-recorded sent main notification blocks the main delivery
    call. -/
lemma attempted_main_blocked (ea : Bool) (now : ℚ) (toma : Toma)
    (notifs : List Notificacion) (sa sm : Bool) (n : Notificacion)
    (hn : n ∈ notifs) (ht : n.tipo = .principal) (he : n.enviada = true) :
    (dispatchDose ea now toma notifs sa sm).attempted_main = false := by
  by_contra h
  rw [Bool.not_eq_false] at h
  obtain ⟨_, _, _, hall⟩ := attempted_main_spec ea now toma notifs sa sm h
  exact absurd (hall n hn ht) (by simp [he])

/-- C7: the dispatcher calls the advance delivery only for a pending
    dose with the advance reminder enabled, 4–6 minutes before schedule,
    and no sent advance record (main: within ±2 minutes and no sent main
    record); on success it persists exactly one sent advance record at
    schedule − 5 minutes (main: at schedule); and two back-to-back
    passes over the same dose and clock deliver at most one advance and
    at most one main notification in total. -/
theorem claim7_notification_dispatch (ea : Bool) (now : ℚ) (toma : Toma)
    (notifs : List Notificacion) (s1a s1m s2a s2m : Bool) :
    ((dispatchDose ea now toma notifs s1a s1m).attempted_advance = true →
      toma.estado = .pendiente ∧ ea = true ∧
      4 ≤ toma.hora_programada - now ∧ toma.hora_programada - now ≤ 6 ∧
      ∀ n ∈ notifs, n.tipo = .recordatorio → n.enviada = false) ∧
    ((dispatchDose ea now toma notifs s1a s1m).attempted_main = true →
      toma.estado = .pendiente ∧
      -2 ≤ toma.hora_programada - now ∧ toma.hora_programada - now ≤ 2 ∧
      ∀ n ∈ notifs, n.tipo = .principal → n.enviada = false) ∧
    ((dispatchDose ea now toma notifs s1a s1m).notifs =
      notifs ++
        (if (dispatchDose ea now toma notifs s1a s1m).attempted_advance = true ∧
            s1a = true then
          [{ tipo := .recordatorio, hora_programada := toma.hora_programada - 5,
             enviada := true }]
        else []) ++
        (if (dispatchDose ea now toma notifs s1a s1m).attempted_main = true ∧
            s1m = true then
          [{ tipo := .principal, hora_programada := toma.hora_programada,
             enviada := true }]
        else [])) ∧
    ((if (dispatchDose ea now toma notifs s1a s1m).attempted_advance = true ∧
          s1a = true then 1 else 0) +
      (if (dispatchDose ea now toma
            (dispatchDose ea now toma notifs s1a s1m).notifs
            s2a s2m).attempted_advance = true ∧ s2a = true then 1 else 0)
        ≤ 1) ∧
    ((if (dispatchDose ea now toma notifs s1a s1m).attempted_main = true ∧
          s1m = true then 1 else 0) +
      (if (dispatchDose ea now toma
            (dispatchDose ea now toma notifs s1a s1m).notifs
            s2a s2m).attempted_main = true ∧ s2m = true then 1 else 0)
        ≤ 1) := by
  refine ⟨attempted_advance_spec ea now toma notifs s1a s1m,
          attempted_main_spec ea now toma notifs s1a s1m,
          dispatchDose_notifs_shape ea now toma notifs s1a s1m, ?_, ?_⟩
  · by_cases c1 : (dispatchDose ea now toma notifs s1a s1m).attempted_advance
        = true ∧ s1a = true
    · have hmem : ({ tipo := .recordatorio,
                     hora_programada := toma.hora_programada - 5,
                     enviada := true }
            : Notificacion) ∈ (dispatchDose ea now toma notifs s1a s1m).notifs := by
        rw [dispatchDose_notifs_shape ea now toma notifs s1a s1m, if_pos c1]
        exact List.mem_append_left _
          (List.mem_append_right _ (List.mem_singleton_self _))
      have hblock := attempted_advance_blocked ea now toma
        (dispatchDose ea now toma notifs s1a s1m).notifs s2a s2m _ hmem rfl rfl
      rw [if_pos c1, if_neg (fun hc => by rw [hblock] at hc; simp at hc)]
    · simp only [if_neg c1, zero_add]
      split <;> norm_num
  · by_cases c1 : (dispatchDose ea now toma notifs s1a s1m).attempted_main
        = true ∧ s1m = true
    · have hmem : ({ tipo := .principal,
                     hora_programada := toma.hora_programada,
                     enviada := true }
            : Notificacion) ∈ (dispatchDose ea now toma notifs s1a s1m).notifs := by
        rw [dispatchDose_notifs_shape ea now toma notifs s1a s1m, if_pos c1]
        exact List.mem_append_right _ (List.mem_singleton_self _)
      have hblock := attempted_main_blocked ea now toma
        (dispatchDose ea now toma notifs s1a s1m).notifs s2a s2m _ hmem rfl rfl
      rw [if_pos c1, if_neg (fun hc => by rw [hblock] at hc; simp at hc)]
    · simp only [if_neg c1, zero_add]
      split <;> norm_num

/-- Witness for C7: a pending dose five minutes ahead, with the advance
    reminder on and no notification history, gets the advance delivery
    call, whose preconditions the first conjunct then reports. -/
theorem claim7_notification_dispatch_witness :
    ({ hora_programada := 5, hora_confirmada := none,
       estado := .pendiente } : Toma).estado = .pendiente ∧
    (true = true ∧
      (4:ℚ) ≤ 5 - 0 ∧ (5:ℚ) - 0 ≤ 6 ∧
      ∀ n ∈ ([] : List Notificacion), n.tipo = .recordatorio →
        n.enviada = false) := by
  have h := (claim7_notification_dispatch true 0
    { hora_programada := 5, hora_confirmada := none, estado := .pendiente }
    [] true true true true).1
  have hatt : (dispatchDose true 0
      { hora_programada := 5, hora_confirmada := none, estado := .pendiente }
      [] true true).attempted_advance = true := by
    unfold dispatchDose
    rw [if_pos (by norm_num)]
    dsimp only
    rw [decide_eq_true_eq]
    norm_num
  obtain ⟨h1, h2, h3, h4, h5⟩ := h hatt
  exact ⟨h1, h2, h3, h4, h5⟩

/-- The while loop exits strictly past the clock. -/
lemma advancePast_gt (f c : ℚ) (hf : 0 < f) (x : ℚ) :
    c < advancePast f c hf x := by
  induction x using advancePast.induct f c hf with
  | case1 x hle ih => rw [advancePast, dif_pos hle]; exact ih
  | case2 x hgt => rw [advancePast, dif_neg hgt]; linarith

/-- The while loop lands on the arithmetic progression of its start. -/
lemma advancePast_exists (f c : ℚ) (hf : 0 < f) (x : ℚ) :
    ∃ k : ℕ, advancePast f c hf x = x + (k : ℚ) * f := by
  induction x using advancePast.induct f c hf with
  | case1 x hle ih =>
      obtain ⟨k, hk⟩ := ih
      refine ⟨k + 1, ?_⟩
      rw [advancePast, dif_pos hle, hk]
      push_cast
      ring
  | case2 x hgt =>
      refine ⟨0, ?_⟩
      rw [advancePast, dif_neg hgt]
      simp

/-- The while loop stops at the first progression point past the
    clock. -/
lemma advancePast_min (f c : ℚ) (hf : 0 < f) (x : ℚ) :
    ∀ j : ℕ, c < x + (j : ℚ) * f → advancePast f c hf x ≤ x + (j : ℚ) * f := by
  induction x using advancePast.induct f c hf with
  | case1 x hle ih =>
      intro j hj
      cases j with
      | zero => simp only [Nat.cast_zero, zero_mul, add_zero] at hj; linarith
      | succ j' =>
          rw [advancePast, dif_pos hle]
          have hj' : c < (x + f) + (j' : ℚ) * f := by push_cast at hj; linarith
          have := ih j' hj'
          push_cast
          linarith
  | case2 x hgt =>
      intro j hj
      rw [advancePast, dif_neg hgt]
      have : (0:ℚ) ≤ (j : ℚ) * f := mul_nonneg (Nat.cast_nonneg j) (le_of_lt hf)
      linarith

/-- The for loop emits at most `count` instants. -/
lemma generateDoses_length_le (t : Tratamiento) (f : ℚ) :
    ∀ (count : ℕ) (x : ℚ), (generateDoses t f count x).length ≤ count := by
  intro count
  induction count with
  | zero => intro x; simp [generateDoses]
  | succ n ih =>
      intro x
      by_cases hw : is_dose_within_treatment t x = true
      · simp only [generateDoses, if_pos hw, List.length_cons]
        exact Nat.succ_le_succ (ih _)
      · simp [generateDoses, hw]

/-- The i-th emitted instant is start + i steps (optional-lookup
    form). -/
lemma generateDoses_getq (t : Tratamiento) (f : ℚ) :
    ∀ (count : ℕ) (x : ℚ) (i : ℕ), i < (generateDoses t f count x).length →
      (generateDoses t f count x).get? i = some (x + (i : ℚ) * f) := by
  intro count
  induction count with
  | zero => intro x i h; simp [generateDoses] at h
  | succ n ih =>
      intro x i h
      by_cases hw : is_dose_within_treatment t x = true
      · have hlist : generateDoses t f (n + 1) x =
            x :: generateDoses t f n (x + f) := by
          simp [generateDoses, hw]
        rw [hlist] at h ⊢
        cases i with
        | zero => simp
        | succ i' =>
            rw [List.length_cons] at h
            have h' : i' < (generateDoses t f n (x + f)).length := by omega
            rw [List.get?_cons_succ, ih _ _ h']
            congr 1
            push_cast
            ring
      · rw [show generateDoses t f (n + 1) x = [] by simp [generateDoses, hw]] at h
        simp at h

/-- The i-th emitted instant is start + i steps. -/
lemma generateDoses_get (t : Tratamiento) (f : ℚ) (count : ℕ) (x : ℚ) (i : ℕ)
    (h : i < (generateDoses t f count x).length) :
    (generateDoses t f count x).get ⟨i, h⟩ = x + (i : ℚ) * f := by
  have h1 := generateDoses_getq t f count x i h
  rw [List.get?_eq_get h] at h1
  exact Option.some.inj h1

/-- Every emitted instant passes the treatment-window check. -/
lemma generateDoses_within (t : Tratamiento) (f : ℚ) :
    ∀ (count : ℕ) (x : ℚ), ∀ y ∈ generateDoses t f count x,
      is_dose_within_treatment t y = true := by
  intro count
  induction count with
  | zero => intro x y hy; simp [generateDoses] at hy
  | succ n ih =>
      intro x y hy
      by_cases hw : is_dose_within_treatment t x = true
      · rw [show generateDoses t f (n + 1) x = x :: generateDoses t f n (x + f)
            by simp [generateDoses, hw]] at hy
        rcases List.mem_cons.mp hy with rfl | hy'
        · exact hw
        · exact ih _ _ hy'
      · rw [show generateDoses t f (n + 1) x = [] by simp [generateDoses, hw]] at hy
        simp at hy

/-- When the for loop stops early, the very next instant fails the
    treatment-window check. -/
lemma generateDoses_trunc (t : Tratamiento) (f : ℚ) :
    ∀ (count : ℕ) (x : ℚ), (generateDoses t f count x).length < count →
      is_dose_within_treatment t
        (x + ((generateDoses t f count x).length : ℚ) * f) = false := by
  intro count
  induction count with
  | zero => intro x h; omega
  | succ n ih =>
      intro x h
      by_cases hw : is_dose_within_treatment t x = true
      · have hlist : generateDoses t f (n + 1) x =
            x :: generateDoses t f n (x + f) := by
          simp [generateDoses, hw]
        rw [hlist] at h ⊢
        simp only [List.length_cons] at h ⊢
        have h' : (generateDoses t f n (x + f)).length < n :=
          Nat.lt_of_succ_lt_succ h
        have hnext := ih (x + f) h'
        have harith : x + (((generateDoses t f n (x + f)).length + 1 : ℕ) : ℚ) * f =
            (x + f) + ((generateDoses t f n (x + f)).length : ℚ) * f := by
          push_cast
          ring
        rw [harith]
        exact hnext
      · rw [show generateDoses t f (n + 1) x = [] by simp [generateDoses, hw]]
        simp only [List.length_nil, Nat.cast_zero, zero_mul, add_zero]
        simpa using hw

/-- The for loop's first emitted instant, when any, is its starting
    instant. -/
lemma generateDoses_head (t : Tratamiento) (f : ℚ) (count : ℕ) (x z : ℚ)
    (h : (generateDoses t f count x).head? = some z) : z = x := by
  cases count with
  | zero => simp [generateDoses] at h
  | succ n =>
      by_cases hw : is_dose_within_treatment t x = true
      · rw [show generateDoses t f (n + 1) x = x :: generateDoses t f n (x + f)
            by simp [generateDoses, hw]] at h
        simpa using h.symm
      · rw [show generateDoses t f (n + 1) x = [] by simp [generateDoses, hw]] at h
        simp at h

/-- C3: the function `calculate_all_future_doses` returns at most `count` instants,
    each strictly after the clock and inside the treatment window,
    consecutive instants exactly one frequency apart; its first element
    is the least instant of the form base + k·frequency (k ≥ 0) that
    exceeds the clock; and when it stops early, the next instant in the
    progression falls outside the treatment window. -/
theorem claim3_calculate_all_future_doses (t : Tratamiento) (doses : List Toma)
    (now : ℚ) (count : ℕ) (hfreq : 0 < t.frecuencia_horas) :
    (calculate_all_future_doses t doses now count hfreq).length ≤ count ∧
    (∀ z ∈ calculate_all_future_doses t doses now count hfreq, now < z) ∧
    (∀ z ∈ calculate_all_future_doses t doses now count hfreq,
      is_dose_within_treatment t z = true) ∧
    (∀ (i : ℕ) (h1 : i + 1 < (calculate_all_future_doses t doses now count hfreq).length),
      (calculate_all_future_doses t doses now count hfreq).get ⟨i + 1, h1⟩ =
        (calculate_all_future_doses t doses now count hfreq).get
          ⟨i, Nat.lt_of_succ_lt h1⟩ + t.frecuencia_horas * 60) ∧
    (∀ z, (calculate_all_future_doses t doses now count hfreq).head? = some z →
      now < z ∧
      (∃ k : ℕ, z = scheduleBase t doses + (k : ℚ) * (t.frecuencia_horas * 60)) ∧
      ∀ j : ℕ, now < scheduleBase t doses + (j : ℚ) * (t.frecuencia_horas * 60) →
        z ≤ scheduleBase t doses + (j : ℚ) * (t.frecuencia_horas * 60)) ∧
    ((calculate_all_future_doses t doses now count hfreq).length < count →
      is_dose_within_treatment t
        (advancePast (t.frecuencia_horas * 60) now
            (mul_pos hfreq (by norm_num)) (scheduleBase t doses) +
          ((calculate_all_future_doses t doses now count hfreq).length : ℚ) *
            (t.frecuencia_horas * 60)) = false) := by
  have hfm : (0:ℚ) < t.frecuencia_horas * 60 := mul_pos hfreq (by norm_num)
  have hdef : calculate_all_future_doses t doses now count hfreq =
      generateDoses t (t.frecuencia_horas * 60) count
        (advancePast (t.frecuencia_horas * 60) now hfm (scheduleBase t doses)) :=
    rfl
  have hstart := advancePast_gt (t.frecuencia_horas * 60) now hfm (scheduleBase t doses)
  refine ⟨?_, ?_, ?_, ?_, ?_, ?_⟩
  · rw [hdef]
    exact generateDoses_length_le t _ count _
  · intro z hz
    rw [hdef] at hz
    obtain ⟨⟨i, hi⟩, rfl⟩ := List.mem_iff_get.mp hz
    rw [generateDoses_get t _ count _ i hi]
    have hnn : (0:ℚ) ≤ (i : ℚ) * (t.frecuencia_horas * 60) :=
      mul_nonneg (Nat.cast_nonneg i) (le_of_lt hfm)
    linarith
  · intro z hz
    rw [hdef] at hz
    exact generateDoses_within t _ count _ z hz
  · intro i h1
    have e1 : (calculate_all_future_doses t doses now count hfreq).get ⟨i + 1, h1⟩ =
        advancePast (t.frecuencia_horas * 60) now hfm (scheduleBase t doses) +
          ((i + 1 : ℕ) : ℚ) * (t.frecuencia_horas * 60) :=
      generateDoses_get t _ count _ (i + 1) h1
    have e2 : (calculate_all_future_doses t doses now count hfreq).get
          ⟨i, Nat.lt_of_succ_lt h1⟩ =
        advancePast (t.frecuencia_horas * 60) now hfm (scheduleBase t doses) +
          (i : ℚ) * (t.frecuencia_horas * 60) :=
      generateDoses_get t _ count _ i (Nat.lt_of_succ_lt h1)
    rw [e1, e2]
    push_cast
    ring
  · intro z hz
    rw [hdef] at hz
    have hz0 := generateDoses_head t _ count _ z hz
    subst hz0
    refine ⟨hstart, advancePast_exists _ now hfm _, ?_⟩
    exact advancePast_min _ now hfm _
  · intro hshort
    rw [hdef] at hshort ⊢
    exact generateDoses_trunc t _ count _ hshort

/-- Witness for C3 at a concrete treatment: hourly frequency, start
    at 0, one-day duration, empty history, clock at minute 30, asking
    for three doses. -/
theorem claim3_calculate_all_future_doses_witness :
    (0:ℚ) < (1:ℚ) ∧
    (calculate_all_future_doses
      { fecha_hora_inicio := 0, frecuencia_horas := 1,
        modo_calculo := .programada, es_indefinido := false,
        duracion_dias := some 1 } [] 30 3 (by norm_num)).length ≤ 3 :=
  ⟨by norm_num,
   (claim3_calculate_all_future_doses
      { fecha_hora_inicio := 0, frecuencia_horas := 1,
        modo_calculo := .programada, es_indefinido := false,
        duracion_dias := some 1 } [] 30 3 (by norm_num)).1⟩

end DoseClock
